import Mathlib

set_option maxRecDepth 100000

deriving instance DecidableEq for Except

/-!
Shallow embedding of the core of the `cicero_maru_utils` repository:
the version registry (`versions.py`), the column-label dictionary
(`labels/columns.py`), the categorical schema builder and the
municipality name/number splitter (`scripts/xlsx_to_parquet.py`), the
aggregation-spec engine (`processed_vars/types.py`,
`processed_vars/specs.py`) and the parquet loader
(`scripts/maru_parquet_to_lokfram_variables.py`), together with
theorems settling the specification's claims against this embedding.

Conventions: Python exceptions are modelled by `Except` with the
message text of the source (single quotes written `\x27`); Polars
frames are modelled as lists of rows, a row being an association list
from column name to a cell value; categorical cells are modelled by
their string label and all numeric columns by exact integers (no
claim depends on float rounding or on fractional values; the sort
claims exclude the summed value column).
-/

/-! ### versions.py

`MaruVersion` is a Python `StrEnum` with members `'20241128'` and
`'20250304'`.  Converting a string outside that set, `MaruVersion(s)`,
raises `ValueError(f"{s!r} is not a valid MaruVersion")`; converting a
member value returns the member.  We model the enum by its string
values and the conversion by `Except`. -/

def maru_version_values : List String := ["20241128", "20250304"]

def maru_version_of_string (s : String) : Except String String :=
  if s ∈ maru_version_values then Except.ok s
  else Except.error ("\x27" ++ s ++ "\x27 is not a valid MaruVersion")

/-! ### labels/columns.py -/

/-- Field-to-column-name record `MaruColOrig`: a Python dataclass whose
fields all default to the literal column names below; `kwh_battery` and
`kwh_shore_power` default to `None` (modelled by `Option String`). -/
structure MaruColOrig where
  year : String := "year"
  year_month : String := "year_month"
  gt_group : String := "gt_group"
  vessel_type : String := "vessel_type"
  phase : String := "phase"
  voyage_type : String := "voyage_type"
  ez_area_name : String := "maritime_borders_norwegian_economic_zone_area_name"
  mgmt_plan_area_name : String := "management_plan_marine_areas_area_name_norwegian"
  municipality_name : String := "municipality_name"
  county_name : String := "county_name"
  municipality_voyage_type : String := "municipality_voyage_type"
  time_sec : String := "sum_seconds"
  energy_kwh : String := "sum_kwh"
  kwh_battery : Option String := none
  kwh_shore_power : Option String := none
  fuel : String := "sum_fuel"
  co2 : String := "sum_co2"
  nmvoc : String := "sum_nmvoc"
  co : String := "sum_co"
  ch4 : String := "sum_ch4"
  n2o : String := "sum_n2o"
  sox : String := "sum_sox"
  pm10 : String := "sum_pm10"
  pm2_5 : String := "sum_pm2_5"
  nox : String := "sum_nox"
  bc : String := "sum_bc"
  co2e : String := "sum_co2e"
  distance_km : String := "distance_kilometers"
  version : String := "version"
  timestamp : String := "timestamp_utc_generated"
deriving DecidableEq

/-- Dataclass `MaruCol(MaruColOrig)` adds the two columns synthesized
during processing. -/
structure MaruCol extends MaruColOrig where
  municipality_number : String := "municipality_number"
  month : String := "month"
deriving DecidableEq

/-- Python class-attribute access `MaruColOrig.<field>` yields the
field's default value; this record holds exactly those defaults. -/
def maru_col_orig_class : MaruColOrig := {}

/-- Python class-attribute access `MaruCol.<field>` (used in
`get_source_schema` and in `group_by_common`) likewise yields the
defaults; in particular `MaruCol.kwh_battery` is `None`. -/
def maru_col_class : MaruCol := {}

/-- Dead-branch message of `get_maru_cols_original` (the f-string at
`columns.py:81`); `valid_versions` joined by `", "`. -/
def invalid_version_message : String :=
  "Invalid value passed in `version`. Valid values are: "
    ++ String.intercalate "\", \"" maru_version_values

/-- Embedding of `get_maru_cols_original` (`columns.py:51`): the
argument is first normalized through `MaruVersion(version)` (which
raises for anything outside the closed set), then dispatched on the two
members; the final `else` raise with `invalid_version_message` is kept
although it is unreachable after a successful conversion. -/
def get_maru_cols_original (version : String) : Except String MaruColOrig := do
  let v ← maru_version_of_string version
  if v = "20241128" then
    pure {}
  else if v = "20250304" then
    pure { kwh_battery := some "sum_kwh_battery",
           kwh_shore_power := some "sum_kwh_shore_power" }
  else
    Except.error invalid_version_message

/-- Embedding of `get_maru_cols` (`columns.py:86`):
`MaruCol(**dataclasses.asdict(orig))`. -/
def get_maru_cols (version : String) : Except String MaruCol :=
  (get_maru_cols_original version).map (fun orig => { toMaruColOrig := orig })

/-! ### scripts/xlsx_to_parquet.py - schema builder -/

/-- Polars dtypes used by the source schema. -/
inductive DType where
  | enum (categories : List String)
  | datetime (time_unit : String) (time_zone : String)
  | int16
  | int8
  | float64
  | text
deriving DecidableEq

/-- Column-name lookup in a schema (a Python dict keyed by name). -/
def schemaFind (s : List (String × DType)) (c : String) : Option DType :=
  (s.find? (fun p => p.1 == c)).map (fun p => p.2)

/-- Dict union `a | b`: keys of `a` keep their position, values
overridden by `b` where present; keys only in `b` are appended in
order. -/
def schemaUnion (a b : List (String × DType)) : List (String × DType) :=
  a.map (fun p =>
    match schemaFind b p.1 with
    | some d => (p.1, d)
    | none => p)
  ++ b.filter (fun p => (schemaFind a p.1).isNone)

/-- Accessor for `schema[col].categories.to_list()`. -/
def enumCategories (s : List (String × DType)) (c : String) : List String :=
  match schemaFind s c with
  | some (DType.enum l) => l
  | _ => []

def municipality_list_original : List String := [
  "Alstahaug (1820)", "Alta (5601)", "Alver (4631)",
  "Andøy (1871)", "Arendal (4203)", "Asker (3203)",
  "Askvoll (4645)", "Askøy (4627)", "Aukra (1547)",
  "Aure (1576)", "Aurland (4641)", "Aurskog-Høland (3226)",
  "Austevoll (4625)", "Austrheim (4632)", "Averøy (1554)",
  "Balsfjord (5532)", "Bamble (4012)", "Bardu (5520)",
  "Beiarn (1839)", "Bergen (4601)", "Berlevåg (5630)",
  "Bindal (1811)", "Birkenes (4216)", "Bjerkreim (1114)",
  "Bjørnafjorden (4624)", "Bodø (1804)", "Bokn (1145)",
  "Bremanger (4648)", "Brønnøy (1813)", "Bygland (4220)",
  "Bykle (4222)", "Båtsfjord (5632)", "Bærum (3201)",
  "Bø (1867)", "Bømlo (4613)", "Dovre (3431)",
  "Drammen (3301)", "Drangedal (4016)", "Dyrøy (5528)",
  "Dønna (1827)", "Eidfjord (4619)", "Eidskog (3416)",
  "Eidsvoll (3240)", "Eigersund (1101)", "Enebakk (3220)",
  "Engerdal (3425)", "Etne (4611)", "Etnedal (3450)",
  "Evenes (1853)", "Evje og Hornnes (4219)", "Farsund (4206)",
  "Fauske (1841)", "Fedje (4633)", "Fitjar (4615)",
  "Fjaler (4646)", "Fjord (1578)", "Flakstad (1859)",
  "Flatanger (5049)", "Flekkefjord (4207)", "Flå (3320)",
  "Folldal (3429)", "Fredrikstad (3107)", "Frogn (3214)",
  "Froland (4214)", "Frosta (5036)", "Frøya (5014)",
  "Færder (3911)", "Gamvik (5626)", "Gildeskål (1838)",
  "Giske (1532)", "Gjemnes (1557)", "Gjerdrum (3230)",
  "Gjerstad (4211)", "Gjesdal (1122)", "Gjøvik (3407)",
  "Gloppen (4650)", "Gol (3324)", "Gran (3446)",
  "Grane (1825)", "Gratangen (5516)", "Grimstad (4202)",
  "Gulen (4635)", "Hadsel (1866)", "Halden (3101)",
  "Hamar (3403)", "Hamarøy (1875)", "Hammerfest (5603)",
  "Haram (1580)", "Hareid (1517)", "Harstad (5503)",
  "Hasvik (5616)", "Hattfjelldal (1826)", "Haugesund (1106)",
  "Heim (5055)", "Hemnes (1832)", "Herøy (1515)",
  "Herøy (1818)", "Hitra (5056)", "Hjelmeland (1133)",
  "Hol (3330)", "Hole (3310)", "Holmestrand (3903)",
  "Horten (3901)", "Hurdal (3242)", "Hustadvika (1579)",
  "Hvaler (3110)", "Hyllestad (4637)", "Hå (1119)",
  "Høyanger (4638)", "Høylandet (5046)", "Ibestad (5514)",
  "Inderøy (5053)", "Indre Fosen (5054)", "Indre Østfold (3118)",
  "Iveland (4218)", "Jevnaker (3236)", "Karasjok (5610)",
  "Karlsøy (5534)", "Karmøy (1149)", "Kautokeino (5612)",
  "Kinn (4602)", "Klepp (1120)", "Kongsvinger (3401)",
  "Kragerø (4014)", "Kristiansand (4204)", "Kristiansund (1505)",
  "Krødsherad (3318)", "Kvam (4622)", "Kvinesdal (4227)",
  "Kvinnherad (4617)", "Kviteseid (4028)", "Kvitsøy (1144)",
  "Kvæfjord (5510)", "Kvænangen (5546)", "Kåfjord (5540)",
  "Larvik (3909)", "Lavangen (5518)", "Lebesby (5624)",
  "Leirfjord (1822)", "Leka (5052)", "Levanger (5037)",
  "Lier (3312)", "Lierne (5042)", "Lillehammer (3405)",
  "Lillesand (4215)", "Lillestrøm (3205)", "Lindesnes (4205)",
  "Lom (3434)", "Loppa (5614)", "Lund (1112)",
  "Lunner (3234)", "Lurøy (1834)", "Luster (4644)",
  "Lyngdal (4225)", "Lyngen (5536)", "Lærdal (4642)",
  "Lødingen (1851)", "Malvik (5031)", "Masfjorden (4634)",
  "Melhus (5028)", "Meløy (1837)", "Midt-Telemark (4020)",
  "Midtre Gauldal (5027)", "Modalen (4629)", "Modum (3316)",
  "Molde (1506)", "Moskenes (1874)", "Moss (3103)",
  "Målselv (5524)", "Måsøy (5618)", "Namsos (5007)",
  "Namsskogan (5044)", "Narvik (1806)", "Nes (3228)",
  "Nesna (1828)", "Nesodden (3212)", "Nesseby (5636)",
  "Nittedal (3232)", "Nome (4018)", "Nord-Odal (3414)",
  "Nordkapp (5620)", "Nordre Follo (3207)", "Nordre Land (3448)",
  "Nordreisa (5544)", "Nore og Uvdal (3338)", "Notodden (4005)",
  "Nærøysund (5060)", "Oppdal (5021)", "Orkland (5059)",
  "Osen (5020)", "Oslo (0301)", "Osterøy (4630)",
  "Overhalla (5047)", "Porsanger (5622)", "Porsgrunn (4001)",
  "Rakkestad (3120)", "Rana (1833)", "Randaberg (1127)",
  "Rauma (1539)", "Rendalen (3424)", "Rindal (5061)",
  "Ringerike (3305)", "Ringsaker (3411)", "Risør (4201)",
  "Rollag (3336)", "Røyrvik (5043)", "Råde (3112)",
  "Rødøy (1836)", "Røst (1856)", "Salangen (5522)",
  "Saltdal (1840)", "Samnanger (4623)", "Sande (1514)",
  "Sandefjord (3907)", "Sandnes (1108)", "Sarpsborg (3105)",
  "Sauda (1135)", "Sel (3437)", "Selbu (5032)",
  "Senja (5530)", "Sigdal (3332)", "Siljan (4010)",
  "Sirdal (4228)", "Skaun (5029)", "Skien (4003)",
  "Skjervøy (5542)", "Skjåk (3433)", "Smøla (1573)",
  "Snåsa (5041)", "Sogndal (4640)", "Sokndal (1111)",
  "Sola (1124)", "Solund (4636)", "Sortland (1870)",
  "Stad (4649)", "Stange (3413)", "Stavanger (1103)",
  "Steigen (1848)", "Steinkjer (5006)", "Stjørdal (5035)",
  "Stord (4614)", "Storfjord (5538)", "Strand (1130)",
  "Stranda (1525)", "Stryn (4651)", "Sula (1531)",
  "Suldal (1134)", "Sunndal (1563)", "Sunnfjord (4647)",
  "Surnadal (1566)", "Svalbard", "Sveio (4612)",
  "Sykkylven (1528)", "Sømna (1812)", "Søndre Land (3447)",
  "Sør-Aurdal (3449)", "Sør-Odal (3415)", "Sør-Varanger (5605)",
  "Sørfold (1845)", "Sørreisa (5526)", "Tana (5628)",
  "Time (1121)", "Tingvoll (1560)", "Tinn (4026)",
  "Tjeldsund (5512)", "Tokke (4034)", "Tolga (3426)",
  "Tromsø (5501)", "Trondheim (5001)", "Træna (1835)",
  "Tvedestrand (4213)", "Tynset (3427)", "Tysnes (4616)",
  "Tysvær (1146)", "Tønsberg (3905)", "Ullensaker (3209)",
  "Ullensvang (4618)", "Ulstein (1516)", "Ulvik (4620)",
  "Utsira (1151)", "Vadsø (5607)", "Vaksdal (4628)",
  "Valle (4221)", "Vanylven (1511)", "Vardø (5634)",
  "Vefsn (1824)", "Vega (1815)", "Vegårshei (4212)",
  "Vennesla (4223)", "Verdal (5038)", "Vestby (3216)",
  "Vestnes (1535)", "Vestre Slidre (3452)", "Vestvågøy (1860)",
  "Vevelstad (1816)", "Vik (4639)", "Vindafjord (1160)",
  "Vinje (4036)", "Volda (1577)", "Voss (4621)",
  "Vågan (1865)", "Våler (3419)", "Værøy (1857)",
  "Åfjord (5058)", "Ålesund (1508)", "Åmli (4217)",
  "Åmot (3422)", "Årdal (4643)", "Ås (3218)",
  "Åseral (4224)", "Åsnes (3418)", "Øksnes (1868)",
  "Ørland (5057)", "Ørsta (1520)", "Østre Toten (3442)",
  "Øvre Eiker (3314)", "Øygarden (4626)"
]

def municipality_list_added_later : List String := [
  "Elverum (3420)", "Flesberg (3334)", "Fyresdal (4032)",
  "Hemsedal (3326)", "Hjartdal (4024)", "Hægebostad (4226)",
  "Kongsberg (3303)", "Lesja (3432)", "Løten (3412)",
  "Marker (3122)", "Meråker (5034)", "Nannestad (3238)",
  "Nesbyen (3322)", "Nissedal (4030)", "Nord-Aurdal (3451)",
  "Nord-Fron (3436)", "Os (3430)", "Rennebu (5022)",
  "Ringebu (3439)", "Røros (5025)", "Seljord (4022)",
  "Stor-Elvdal (3423)", "Trysil (3421)", "Tydal (5033)",
  "Vang (3454)", "Vågå (3435)", "Ål (3328)",
  "Øystre Slidre (3453)"
]

/-- Base schema dict of `get_source_schema` (`xlsx_to_parquet.py:38`),
keys written through class-attribute access `MaruColOrig.<field>`.  The
municipality domain is the concatenation of the original list and the
later-added list, exactly as in the source. -/
def schema_base : List (String × DType) := [
  (maru_col_orig_class.gt_group, DType.enum
    ["Unknown", "gt1, 0-399", "gt2, 400-999", "gt3, 1000-2999",
     "gt4, 3000-4999", "gt5, 5000-9999", "gt6, 10000-24999",
     "gt7, 25000-49999", "gt8, 50000-99999", "gt9, >=100 000"]),
  (maru_col_orig_class.vessel_type, DType.enum
    ["Andre aktiviteter", "Andre offshorefartøy", "Andre servicefartøy",
     "Container/RoRo", "Cruise", "Fiskefartøy", "Gasstankskip",
     "Havbruk", "Kjemikalie-/produkttanker", "Offshore", "Oljetanker",
     "Passasjer", "Stykkgods", "Tørrbulk"]),
  (maru_col_orig_class.phase, DType.enum
    ["Anchor", "Aquacultur", "Cruise", "Dynamic positioning offshore",
     "Electric shore power", "Maneuver", "Node (berth)"]),
  (maru_col_orig_class.voyage_type, DType.enum
    ["Berthed", "Domestic", "International in", "International out",
     "Transitt"]),
  (maru_col_orig_class.ez_area_name, DType.enum
    ["Fiskerisonen ved Jan Mayen", "Fiskevernsonen ved Svalbard",
     "Norges økonomiske sone", "Territorialområde"]),
  (maru_col_orig_class.mgmt_plan_area_name, DType.enum
    ["Barentshavet-Lofoten", "Kystområde Barentshavet",
     "Kystområde Nordsjøen", "Kystområde Norskehavet", "Nordsjøen-Skagerrak",
     "Norskehavet"]),
  (maru_col_orig_class.municipality_name, DType.enum
    (municipality_list_original ++ municipality_list_added_later)),
  (maru_col_orig_class.county_name, DType.enum
    ["Agder", "Akershus", "Buskerud", "Finnmark", "Innlandet",
     "Møre og Romsdal", "Nordland", "Oslo", "Rogaland", "Svalbard",
     "Telemark", "Troms", "Trøndelag", "Vestfold", "Vestland", "Østfold"]),
  (maru_col_orig_class.municipality_voyage_type, DType.enum
    ["Berthed", "Departure or destination", "Local", "Transit"]),
  (maru_col_orig_class.version, DType.enum ["v1.5.0"]),
  (maru_col_orig_class.timestamp, DType.datetime "ms" "UTC"),
  (maru_col_orig_class.year, DType.int16),
  (maru_col_orig_class.year_month, DType.text),
  (maru_col_orig_class.energy_kwh, DType.float64),
  (maru_col_orig_class.fuel, DType.float64),
  (maru_col_orig_class.co2, DType.float64),
  (maru_col_orig_class.nmvoc, DType.float64),
  (maru_col_orig_class.co, DType.float64),
  (maru_col_orig_class.ch4, DType.float64),
  (maru_col_orig_class.n2o, DType.float64),
  (maru_col_orig_class.sox, DType.float64),
  (maru_col_orig_class.pm10, DType.float64),
  (maru_col_orig_class.pm2_5, DType.float64),
  (maru_col_orig_class.nox, DType.float64),
  (maru_col_orig_class.bc, DType.float64),
  (maru_col_orig_class.co2e, DType.float64),
  (maru_col_orig_class.distance_km, DType.float64)]

/-- Version-delta dict comprehension of `get_source_schema`
(`xlsx_to_parquet.py:204`): it iterates over the CLASS attributes
`MaruCol.kwh_battery` and `MaruCol.kwh_shore_power` (both `None`,
because class-attribute access on a dataclass yields the field default,
not the per-version instance produced by `get_maru_cols_original`),
keeping only non-`None` entries. -/
def battery_shore_power_cols : List (String × DType) :=
  ([maru_col_class.kwh_battery, maru_col_class.kwh_shore_power].filterMap id).map
    (fun c => (c, DType.float64))

/-- Embedding of `get_source_schema` (`xlsx_to_parquet.py:25`): the
version is validated through `get_maru_cols_original` (whose result
`cols` the source then never uses); for `'20241128'` the base schema is
returned, otherwise the base schema is dict-unioned with the
version-delta dict. -/
def get_source_schema (version : String) : Except String (List (String × DType)) := do
  let _cols ← get_maru_cols_original version
  if version = "20241128" then
    pure schema_base
  else
    pure (schemaUnion schema_base
      (battery_shore_power_cols ++ [
        (maru_col_orig_class.version, DType.enum ["v1.5.0", "v1.6.0", "v1.7.0"]),
        (maru_col_orig_class.phase, DType.enum
          (enumCategories schema_base maru_col_orig_class.phase ++ ["Fishing"])),
        (maru_col_orig_class.municipality_name, DType.enum
          (enumCategories schema_base maru_col_orig_class.municipality_name
            ++ ["Våler (3114)"])),
        (maru_col_orig_class.voyage_type, DType.enum
          (enumCategories schema_base maru_col_orig_class.voyage_type
            ++ ["NCS_Facility_Proximate"]))]))

/-- Schema actually built for a version (empty list if the version is
rejected; used only to state theorems about supported versions). -/
def schemaOf (version : String) : List (String × DType) :=
  ((get_source_schema version).toOption).getD []

/-- Municipality categorical domain of a version's schema. -/
def municipalityDomain (version : String) : List String :=
  enumCategories (schemaOf version) maru_col_orig_class.municipality_name

/-! ### scripts/xlsx_to_parquet.py - municipality name/number splitter

Both `process_municipality_data` (schema level) and
`process_excel_file` (row level) apply the anchored regex
`^(?P<municipality_name>[^(]*)(?: \((?P<municipality_number>\d{4})\))?$`
through `str.extract_groups`: the name group is any run of characters
other than `(`, optionally followed by a space, an opening parenthesis,
exactly four digits and a closing parenthesis ending the string; a
non-matching string yields null for both groups.  The two code sites
contain byte-identical regex and rewrite expressions; they are embedded
separately below so their equivalence can be stated. -/

/-- Schema-level regex extraction (`xlsx_to_parquet.py:257`, used at
`:267`). -/
def municipality_regex_groups (s : String) : Option String × Option String :=
  let cs := s.toList
  if '(' ∈ cs then
    let pre := cs.takeWhile (fun c => c ≠ '(')
    let post := cs.drop (pre.length + 1)
    if pre.getLast? = some ' ' ∧ post.length = 5 ∧
        (post.take 4).all Char.isDigit ∧ post.getLast? = some ')' then
      (some (String.mk pre.dropLast), some (String.mk (post.take 4)))
    else
      (none, none)
  else
    (some s, none)

/-- Row-level regex extraction (`xlsx_to_parquet.py:315`, used at
`:332`); the regex literal in the source is byte-identical to the
schema-level one. -/
def municipality_regex_groups_row (s : String) : Option String × Option String :=
  let cs := s.toList
  if '(' ∈ cs then
    let pre := cs.takeWhile (fun c => c ≠ '(')
    let post := cs.drop (pre.length + 1)
    if pre.getLast? = some ' ' ∧ post.length = 5 ∧
        (post.take 4).all Char.isDigit ∧ post.getLast? = some ')' then
      (some (String.mk pre.dropLast), some (String.mk (post.take 4)))
    else
      (none, none)
  else
    (some s, none)

/-- Schema-level Herøy rewrite (`xlsx_to_parquet.py:271`): a `when`
condition on a null name is falsy, and string concatenation with a null
number propagates null. -/
def heroy_disambiguation (name number : Option String) : Option String :=
  if name = some "Herøy" then
    number.map (fun n => "Herøy (" ++ n ++ ")")
  else
    name

/-- Row-level Herøy rewrite (`xlsx_to_parquet.py:337`); byte-identical
expression to the schema-level one. -/
def heroy_disambiguation_row (name number : Option String) : Option String :=
  if name = some "Herøy" then
    number.map (fun n => "Herøy (" ++ n ++ ")")
  else
    name

/-- Per-value pipeline of `process_municipality_data`
(`xlsx_to_parquet.py:264`): regex extraction, Herøy rewrite, then
`fill_null('')` on the number column. -/
def process_municipality_value (s : String) : Option String × Option String :=
  let g := municipality_regex_groups s
  (heroy_disambiguation g.1 g.2, some (g.2.getD ""))

/-- Per-value pipeline applied to the municipality column of each
ingested file in `process_excel_file` (`xlsx_to_parquet.py:331`): regex
extraction and Herøy rewrite; no null filling is applied there. -/
def process_row_municipality_value (s : String) : Option String × Option String :=
  let g := municipality_regex_groups_row s
  (heroy_disambiguation_row g.1 g.2, g.2)

/-- Extracted (possibly disambiguated) name of one domain value. -/
def extractedName (s : String) : Option String :=
  (process_municipality_value s).1

/-- Extracted code of one domain value after `fill_null('')`. -/
def extractedNumber (s : String) : Option String :=
  (process_municipality_value s).2

/-- Polars `unique(maintain_order=True)`: first occurrences, input
order preserved. -/
def uniqueKeepFirst {α : Type} [DecidableEq α] : List α → List α
  | [] => []
  | x :: xs => x :: (uniqueKeepFirst xs).filter (fun y => y ≠ x)

/-- Embedding of `process_municipality_data` (`xlsx_to_parquet.py:239`)
applied to a municipality categorical domain: the per-row table of
(name, number) pairs and the two derived enum domains built with
`unique(maintain_order=True)`. -/
def process_municipality_data (dom : List String) :
    List (Option String × Option String)
    × (List (Option String) × List (Option String)) :=
  let df := dom.map process_municipality_value
  (df, (uniqueKeepFirst (df.map (fun p => p.1)),
        uniqueKeepFirst (df.map (fun p => p.2))))

/-! ### processed_vars - table model

Polars frames are modelled as lists of rows; a row is an association
list from column name to cell value.  Categorical and string cells are
modelled by their string label, all numeric cells by exact rationals
(year, month and the float measures; no claim depends on float
rounding or on the ordinal order of enum categories). -/

inductive CellValue where
  | vstr (s : String)
  | vnum (n : Int)
deriving DecidableEq

abbrev Row := List (String × CellValue)

/-- Value of column `c` in row `r` (rows conforming to the schema hold
every column; the default is never reached on well-formed input). -/
def getCol (r : Row) (c : String) : CellValue :=
  ((r.find? (fun p => p.1 == c)).map (fun p => p.2)).getD (CellValue.vstr "")

/-- Ascending comparison of two cells of equal column type; across
types (never compared in a well-typed frame) strings sort first. -/
def CellValue.leB : CellValue → CellValue → Bool
  | .vstr a, .vstr b => a ≤ b
  | .vstr _, .vnum _ => true
  | .vnum _, .vstr _ => false
  | .vnum a, .vnum b => a ≤ b

/-- Lexicographic ascending comparison of two rows over a key-column
list, as performed by a multi-column `sort`. -/
def rowLeB (keys : List String) (r1 r2 : Row) : Bool :=
  match keys with
  | [] => true
  | k :: ks =>
    if getCol r1 k = getCol r2 k then rowLeB ks r1 r2
    else CellValue.leB (getCol r1 k) (getCol r2 k)

/-- The row order used to state sortedness. -/
def rowLe (keys : List String) (r1 r2 : Row) : Prop :=
  rowLeB keys r1 r2 = true

theorem CellValue.leB_total (a b : CellValue) :
    CellValue.leB a b = true ∨ CellValue.leB b a = true := by
  cases a <;> cases b <;> simp [CellValue.leB]
  · exact le_total _ _
  · exact le_total _ _

theorem CellValue.leB_trans {a b c : CellValue}
    (h1 : CellValue.leB a b = true) (h2 : CellValue.leB b c = true) :
    CellValue.leB a c = true := by
  cases a <;> cases b <;> cases c <;>
    simp_all [CellValue.leB] <;> exact le_trans h1 h2

theorem CellValue.leB_antisymm {a b : CellValue}
    (h1 : CellValue.leB a b = true) (h2 : CellValue.leB b a = true) :
    a = b := by
  cases a <;> cases b
  case vstr.vstr x y =>
    simp only [CellValue.leB, decide_eq_true_eq] at h1 h2
    exact congrArg CellValue.vstr (le_antisymm h1 h2)
  case vstr.vnum x y => exact absurd h2 (by simp [CellValue.leB])
  case vnum.vstr x y => exact absurd h1 (by simp [CellValue.leB])
  case vnum.vnum x y =>
    simp only [CellValue.leB, decide_eq_true_eq] at h1 h2
    exact congrArg CellValue.vnum (le_antisymm h1 h2)

theorem rowLeB_total (keys : List String) (r1 r2 : Row) :
    rowLeB keys r1 r2 = true ∨ rowLeB keys r2 r1 = true := by
  induction keys with
  | nil => left; rfl
  | cons k ks ih =>
    by_cases h : getCol r1 k = getCol r2 k
    · simp only [rowLeB, h, if_pos rfl, if_pos h.symm]
      exact ih
    · simp only [rowLeB, if_neg h, if_neg (Ne.symm h)]
      exact CellValue.leB_total _ _

theorem rowLeB_trans (keys : List String) (r1 r2 r3 : Row)
    (h1 : rowLeB keys r1 r2 = true) (h2 : rowLeB keys r2 r3 = true) :
    rowLeB keys r1 r3 = true := by
  induction keys with
  | nil => rfl
  | cons k ks ih =>
    by_cases hab : getCol r1 k = getCol r2 k <;>
      by_cases hbc : getCol r2 k = getCol r3 k
    · simp only [rowLeB, if_pos hab, if_pos hbc, if_pos (hab.trans hbc)] at h1 h2 ⊢
      exact ih h1 h2
    · have hac : getCol r1 k ≠ getCol r3 k := by
        rw [hab]; exact hbc
      simp only [rowLeB, if_pos hab, if_neg hbc, if_neg hac] at h1 h2 ⊢
      rw [hab]; exact h2
    · have hac : getCol r1 k ≠ getCol r3 k := by
        rw [hbc] at hab; exact hab
      simp only [rowLeB, if_neg hab, if_pos hbc, if_neg hac] at h1 h2 ⊢
      rw [← hbc]; exact h1
    · simp only [rowLeB, if_neg hab, if_neg hbc] at h1 h2
      by_cases hac : getCol r1 k = getCol r3 k
      · exfalso
        rw [hac] at h1
        exact hbc (CellValue.leB_antisymm h2 h1)
      · simp only [rowLeB, if_neg hac]
        exact CellValue.leB_trans h1 h2

instance (keys : List String) : IsTotal Row (rowLe keys) :=
  ⟨fun r1 r2 => rowLeB_total keys r1 r2⟩

instance (keys : List String) : IsTrans Row (rowLe keys) :=
  ⟨fun r1 r2 r3 => rowLeB_trans keys r1 r2 r3⟩

instance (keys : List String) : DecidableRel (rowLe keys) :=
  fun r1 r2 => instDecidableEqBool (rowLeB keys r1 r2) true

/-- Multi-column ascending sort, as `DataFrame.sort` over the key
columns (modelled with insertion sort; any sorting algorithm satisfies
the ordering claims stated here). -/
def sortRows (keys : List String) (df : List Row) : List Row :=
  List.insertionSort (rowLe keys) df

theorem sortRows_pairwise (keys : List String) (df : List Row) :
    List.Pairwise (rowLe keys) (sortRows keys df) :=
  List.sorted_insertionSort (rowLe keys) df

/-- Tuple of key-column values of one row. -/
def keyTuple (keys : List String) (r : Row) : List CellValue :=
  keys.map (getCol r)

/-- Numeric content of a cell (a `sum` aggregation only ever reads
numeric columns). -/
def CellValue.asNum : CellValue → Int
  | .vnum q => q
  | .vstr _ => 0

/-- Embedding of `group_by(*keys).agg(pl.sum(src).alias(out))`: one
output row per distinct key tuple carrying the key columns and the sum
of `src` over the group.  Polars leaves the group order unspecified;
first-occurrence order is used here, and every ordering claim below is
made independent of it by the subsequent sort. -/
def groupBySum (keys : List String) (src out : String) (df : List Row) : List Row :=
  (uniqueKeepFirst (df.map (keyTuple keys))).map (fun t =>
    keys.zip t ++ [(out, CellValue.vnum
      (((df.filter (fun r => keyTuple keys r = t)).map
        (fun r => CellValue.asNum (getCol r src))).foldl (fun a b => a + b) 0))])

/-- Sort-key selector `cs.exclude(cs.by_name(out))` evaluated against
the aggregation result, whose columns are the group keys followed by
the output value column: every column except `out`, in schema order. -/
def transform_sort_cols (keys : List String) (out : String) : List String :=
  (keys ++ [out]).filter (fun c => c ≠ out)

/-- Shared shape of every `_process_*` transform in
`processed_vars/specs.py`: group by the transform's keys, sum the data
value column into the output value column, then sort ascending by every
result column except the output value column. -/
def group_sum_sort (keys : List String) (src out : String) (df : List Row) : List Row :=
  sortRows (transform_sort_cols keys out) (groupBySum keys src out df)

/-! ### processed_vars/specs.py -/

/-- String values of the `GHG` `StrEnum` (members `CO2`, `CH4`, `N2O`
with `enum.auto()` values). -/
def ghg_values : List String := ["co2", "ch4", "n2o"]

/-- Conversion `GHG(ghg)` (`specs.py:90`): raises `ValueError` for a
value outside the closed set. -/
def ghg_of_string (s : String) : Except String String :=
  if s ∈ ghg_values then Except.ok s
  else Except.error ("\x27" ++ s ++ "\x27 is not a valid GHG")

/-- Fallthrough message of `_select_ghg_value_col` (`specs.py:98`). -/
def unreachable_ghg_message : String :=
  "Invalid GHG value passed. This should not really be possible at this stage, and suggests a bug in the code."

/-- Embedding of `_select_ghg_value_col` (`specs.py:85`): validate the
species through the enum, select the matching sum column through a
conditional chain falling through to an empty-string sentinel, and
raise if the sentinel survived. -/
def select_ghg_value_col (ghg : String) (maru_cols : MaruCol) : Except String String := do
  let g ← ghg_of_string ghg
  let data_value_col : String :=
    if g = "co2" then maru_cols.co2
    else if g = "ch4" then maru_cols.ch4
    else if g = "n2o" then maru_cols.n2o
    else ""
  if data_value_col = "" then
    Except.error unreachable_ghg_message
  else
    pure data_value_col

/-- Common grouping keys (`specs.py:77`), written through
class-attribute access `MaruCol.<field>`. -/
def group_by_common : List String :=
  [maru_col_class.municipality_name, maru_col_class.vessel_type,
   maru_col_class.municipality_voyage_type, maru_col_class.year]

/-- Grouping keys of `_process_ghg_sum_tonn` (`specs.py:119`). -/
def ghg_sum_tonn_keys : List String := group_by_common

/-- Grouping keys of `_process_ghg_per_gt_tonn` (`specs.py:141`). -/
def ghg_per_gt_tonn_keys (maru_cols : MaruCol) : List String :=
  group_by_common ++ [maru_cols.gt_group]

/-- Grouping keys of `_process_ghg_per_phase_tonn` (`specs.py:163`). -/
def ghg_per_phase_tonn_keys (maru_cols : MaruCol) : List String :=
  group_by_common ++ [maru_cols.phase]

/-- Grouping keys of `_process_energy_sum_kwh` (`specs.py:183`). -/
def energy_sum_kwh_keys : List String := group_by_common

/-- Grouping keys of `_process_energy_per_phase_kwh` (`specs.py:203`). -/
def energy_per_phase_kwh_keys (maru_cols : MaruCol) : List String :=
  group_by_common ++ [maru_cols.phase]

/-- Grouping keys of `_process_energy_per_gt_kwh` (`specs.py:223`). -/
def energy_per_gt_kwh_keys (maru_cols : MaruCol) : List String :=
  group_by_common ++ [maru_cols.gt_group]

/-- Grouping keys of `_process_energy_per_voyage_type_kwh`
(`specs.py:243`): the selector
`pl.col(*group_by_common, voyage_type).exclude(municipality_voyage_type)`
selects the common keys plus the voyage-type column and then removes
the municipality-voyage-type column, preserving order. -/
def energy_per_voyage_type_kwh_keys (maru_cols : MaruCol) : List String :=
  (group_by_common ++ [maru_cols.voyage_type]).filter
    (fun c => c ≠ maru_cols.municipality_voyage_type)

/-- Grouping keys of `_process_fuel_sum_tonn` (`specs.py:266`). -/
def fuel_sum_tonn_keys : List String := group_by_common

/-- Grouping keys of `_process_fuel_per_gt_tonn` (`specs.py:286`). -/
def fuel_per_gt_tonn_keys (maru_cols : MaruCol) : List String :=
  group_by_common ++ [maru_cols.gt_group]

/-- Embedding of `_process_ghg_sum_tonn` (`specs.py:105`).  The unused
`output_var_name` parameter is omitted. -/
def process_ghg_sum_tonn (maru_cols : MaruCol) (ghg : String)
    (output_value_col : Option String) (df : List Row) :
    Except String (List Row) := do
  let data_value_col ← select_ghg_value_col ghg maru_cols
  let out := output_value_col.getD data_value_col
  pure (group_sum_sort ghg_sum_tonn_keys data_value_col out df)

/-- Embedding of `_process_ghg_per_gt_tonn` (`specs.py:127`). -/
def process_ghg_per_gt_tonn (maru_cols : MaruCol) (ghg : String)
    (output_value_col : Option String) (df : List Row) :
    Except String (List Row) := do
  let data_value_col ← select_ghg_value_col ghg maru_cols
  let out := output_value_col.getD data_value_col
  pure (group_sum_sort (ghg_per_gt_tonn_keys maru_cols) data_value_col out df)

/-- Embedding of `_process_ghg_per_phase_tonn` (`specs.py:149`). -/
def process_ghg_per_phase_tonn (maru_cols : MaruCol) (ghg : String)
    (output_value_col : Option String) (df : List Row) :
    Except String (List Row) := do
  let data_value_col ← select_ghg_value_col ghg maru_cols
  let out := output_value_col.getD data_value_col
  pure (group_sum_sort (ghg_per_phase_tonn_keys maru_cols) data_value_col out df)

/-- Embedding of `_process_energy_sum_kwh` (`specs.py:171`). -/
def process_energy_sum_kwh (maru_cols : MaruCol)
    (output_value_col : Option String) (df : List Row) : List Row :=
  let out := output_value_col.getD maru_cols.energy_kwh
  group_sum_sort energy_sum_kwh_keys maru_cols.energy_kwh out df

/-- Embedding of `_process_energy_per_phase_kwh` (`specs.py:191`). -/
def process_energy_per_phase_kwh (maru_cols : MaruCol)
    (output_value_col : Option String) (df : List Row) : List Row :=
  let out := output_value_col.getD maru_cols.energy_kwh
  group_sum_sort (energy_per_phase_kwh_keys maru_cols) maru_cols.energy_kwh out df

/-- Embedding of `_process_energy_per_gt_kwh` (`specs.py:211`). -/
def process_energy_per_gt_kwh (maru_cols : MaruCol)
    (output_value_col : Option String) (df : List Row) : List Row :=
  let out := output_value_col.getD maru_cols.energy_kwh
  group_sum_sort (energy_per_gt_kwh_keys maru_cols) maru_cols.energy_kwh out df

/-- Embedding of `_process_energy_per_voyage_type_kwh` (`specs.py:231`). -/
def process_energy_per_voyage_type_kwh (maru_cols : MaruCol)
    (output_value_col : Option String) (df : List Row) : List Row :=
  let out := output_value_col.getD maru_cols.energy_kwh
  group_sum_sort (energy_per_voyage_type_kwh_keys maru_cols)
    maru_cols.energy_kwh out df

/-- Embedding of `_process_fuel_sum_tonn` (`specs.py:254`). -/
def process_fuel_sum_tonn (maru_cols : MaruCol)
    (output_value_col : Option String) (df : List Row) : List Row :=
  let out := output_value_col.getD maru_cols.fuel
  group_sum_sort fuel_sum_tonn_keys maru_cols.fuel out df

/-- Embedding of `_process_fuel_per_gt_tonn` (`specs.py:274`). -/
def process_fuel_per_gt_tonn (maru_cols : MaruCol)
    (output_value_col : Option String) (df : List Row) : List Row :=
  let out := output_value_col.getD maru_cols.fuel
  group_sum_sort (fuel_per_gt_tonn_keys maru_cols) maru_cols.fuel out df

/-! ### processed_vars/types.py -/

/-- Processing-function shape of the `ProcessingFunc` protocol over the
table model (the greenhouse-gas variants can raise). -/
abbrev ProcessingFuncEmb := MaruCol → Option String → List Row → Except String (List Row)

/-- Data of an `OutputVarSpec` before `__post_init__` validation. -/
structure OutputVarSpec where
  name : String
  sheet_name : String
  output_value_col : Option String := none
  processing_func : ProcessingFuncEmb

/-- Maximum worksheet-name length checked in `__post_init__`
(`types.py:33`). -/
def max_sheet_name_len : Nat := 31

/-- Embedding of `OutputVarSpec` construction including the
`__post_init__` sheet-name validation (`types.py:31`); the message's
second sentence is a non-f-string literal in the source and therefore
contains the brace-quoted field name verbatim. -/
def mk_output_var_spec (spec : OutputVarSpec) : Except String OutputVarSpec :=
  if spec.sheet_name.length > max_sheet_name_len then
    Except.error ("Sheet name \"" ++ spec.sheet_name ++ "\" is too long. "
      ++ "It must be \x7bmax_sheet_name_len\x7d characters or less.")
  else
    Except.ok spec

/-! ### scripts/maru_parquet_to_lokfram_variables.py -/

/-- Python exception kinds raised by `get_input_data_obj`. -/
inductive LoadError where
  | fileNotFoundError (msg : String)
  | valueError (msg : String)
deriving DecidableEq

/-- Embedding of `get_input_data_obj`
(`maru_parquet_to_lokfram_variables.py:36`): the `in_file` argument is
modelled by whether it is a filesystem path (`is_path`), whether that
path exists (`path_exists`), its display string (`in_file_name`) and
the parquet contents (`contents`).  The function raises
`FileNotFoundError` for a non-existing path, filters the rows to the
requested municipality name, raises `ValueError` when the filtered
frame is empty, and otherwise returns the filtered frame (the
materialize-then-re-lazy step is the identity in this model). -/
def get_input_data_obj (is_path path_exists : Bool) (in_file_name : String)
    (contents : List Row) (maru_cols : MaruCol) (municipality_name : String) :
    Except LoadError (List Row) :=
  if is_path && !path_exists then
    Except.error (LoadError.fileNotFoundError
      ("Input file \"" ++ in_file_name ++ "\" does not exist."))
  else
    let df := contents.filter (fun r =>
      getCol r maru_cols.municipality_name = CellValue.vstr municipality_name)
    if df.length = 0 then
      Except.error (LoadError.valueError
        ("No data found for municipality \"" ++ municipality_name ++ "\"."))
    else
      Except.ok df

/-! ### Machinery for duplicate-freeness checks

Pairwise distinctness of the large municipality name lists is
established computationally: the names are mapped to numeric keys,
permuted by a fuel-indexed merge sort (fuel-indexed so the kernel can
evaluate it) and checked to be strictly ascending; a strictly ascending
permutation of the key list forces the original list to be
duplicate-free. -/

def mergeFuel {α : Type} (le : α → α → Bool) : Nat → List α → List α → List α
  | 0, xs, ys => xs ++ ys
  | _ + 1, [], ys => ys
  | _ + 1, x :: xs, [] => x :: xs
  | n + 1, x :: xs, y :: ys =>
    if le x y then x :: mergeFuel le n xs (y :: ys)
    else y :: mergeFuel le n (x :: xs) ys

def msortFuel {α : Type} (le : α → α → Bool) : Nat → List α → List α
  | 0, l => l
  | n + 1, l =>
    if l.length ≤ 1 then l
    else
      mergeFuel le l.length
        (msortFuel le n (l.take (l.length / 2)))
        (msortFuel le n (l.drop (l.length / 2)))

theorem mergeFuel_perm {α : Type} (le : α → α → Bool) :
    ∀ (n : Nat) (xs ys : List α), List.Perm (mergeFuel le n xs ys) (xs ++ ys) := by
  intro n
  induction n with
  | zero => intro xs ys; exact List.Perm.refl _
  | succ n ih =>
    intro xs ys
    match xs, ys with
    | [], ys => simp [mergeFuel]
    | x :: xs, [] => simp [mergeFuel]
    | x :: xs, y :: ys =>
      by_cases h : le x y = true
      · simpa [mergeFuel, h] using (ih xs (y :: ys)).cons x
      · have h2 : mergeFuel le (n + 1) (x :: xs) (y :: ys)
            = y :: mergeFuel le n (x :: xs) ys := by
          simp [mergeFuel, h]
        rw [h2]
        exact ((ih (x :: xs) ys).cons y).trans List.perm_middle.symm

theorem msortFuel_perm {α : Type} (le : α → α → Bool) :
    ∀ (n : Nat) (l : List α), List.Perm (msortFuel le n l) l := by
  intro n
  induction n with
  | zero => intro l; exact List.Perm.refl _
  | succ n ih =>
    intro l
    by_cases h : l.length ≤ 1
    · simp [msortFuel, h]
    · have h2 : msortFuel le (n + 1) l
          = mergeFuel le l.length
              (msortFuel le n (l.take (l.length / 2)))
              (msortFuel le n (l.drop (l.length / 2))) := by
        simp [msortFuel, h]
      rw [h2]
      refine (mergeFuel_perm le l.length _ _).trans ?_
      refine ((ih _).append (ih _)).trans ?_
      rw [List.take_append_drop]

/-- Strict ascent of adjacent numeric keys. -/
def chainLtB : List Nat → Bool
  | [] => true
  | [_] => true
  | a :: b :: rest => (decide (a < b)) && chainLtB (b :: rest)

theorem chainLtB_chain : ∀ l : List Nat, chainLtB l = true →
    List.Chain' (fun a b : Nat => a < b) l
  | [], _ => trivial
  | [_], _ => List.chain'_singleton _
  | a :: b :: rest, h => by
    have h2 : a < b ∧ chainLtB (b :: rest) = true := by
      simpa [chainLtB] using h
    exact List.chain'_cons.mpr ⟨h2.1, chainLtB_chain (b :: rest) h2.2⟩

theorem chainLtB_nodup (l : List Nat) (h : chainLtB l = true) : l.Nodup :=
  (List.chain'_iff_pairwise.mp (chainLtB_chain l h)).imp (fun hab => Nat.ne_of_lt hab)

/-- A list is duplicate-free as soon as the image of any key function
sorts to a strictly ascending sequence. -/
theorem nodup_of_key_chain {α : Type} (f : α → Nat) (l : List α)
    (h : chainLtB (msortFuel Nat.ble (l.map f).length (l.map f)) = true) :
    l.Nodup := by
  have h1 : (msortFuel Nat.ble (l.map f).length (l.map f)).Nodup :=
    chainLtB_nodup _ h
  have h2 : (l.map f).Nodup :=
    (msortFuel_perm Nat.ble (l.map f).length (l.map f)).nodup h1
  exact List.Nodup.of_map f h2

/-- Numeric key of a string: the positional value of its code points in
base 1114112 (one more than the largest code point), offset so that the
empty string is distinguishable. -/
def strKey (s : String) : Nat :=
  s.toList.foldl (fun a c => a * 1114112 + (c.toNat + 1)) 0

/-- Numeric key of an optional string. -/
def optStrKey : Option String → Nat
  | none => 0
  | some s => strKey s + 1

/-! ### Shared facts about version validation -/

/-- Substring occurrence, used to state facts about error messages. -/
def strContains (hay needle : String) : Bool :=
  (List.range (hay.length + 1)).any
    (fun i => decide (((hay.toList.drop i).take needle.length) = needle.toList))

theorem get_maru_cols_original_invalid (s : String)
    (h1 : s ≠ "20241128") (h2 : s ≠ "20250304") :
    get_maru_cols_original s
      = Except.error ("\x27" ++ s ++ "\x27 is not a valid MaruVersion") := by
  have hm : maru_version_of_string s
      = Except.error ("\x27" ++ s ++ "\x27 is not a valid MaruVersion") := by
    simp [maru_version_of_string, maru_version_values, h1, h2]
  rw [get_maru_cols_original.eq_def, hm]
  rfl

theorem get_maru_cols_invalid (s : String)
    (h1 : s ≠ "20241128") (h2 : s ≠ "20250304") :
    get_maru_cols s
      = Except.error ("\x27" ++ s ++ "\x27 is not a valid MaruVersion") := by
  rw [get_maru_cols.eq_def, get_maru_cols_original_invalid s h1 h2]
  rfl

theorem get_source_schema_invalid (s : String)
    (h1 : s ≠ "20241128") (h2 : s ≠ "20250304") :
    get_source_schema s
      = Except.error ("\x27" ++ s ++ "\x27 is not a valid MaruVersion") := by
  rw [get_source_schema.eq_def, get_maru_cols_original_invalid s h1 h2]
  rfl

/-- Claim C2, counterexample: for the out-of-set tag `"bogus"` the
accessor raises the enum-conversion `ValueError`, whose message names
the offending tag but does not mention either valid version value, so
the message does not enumerate the valid set (the branch carrying the
enumerating message `invalid_version_message` is unreachable). -/
theorem C2_counterexample :
    get_maru_cols_original "bogus"
      = Except.error ("\x27bogus\x27 is not a valid MaruVersion")
    ∧ strContains ("\x27bogus\x27 is not a valid MaruVersion") "20241128" = false
    ∧ strContains ("\x27bogus\x27 is not a valid MaruVersion") "20250304" = false
    ∧ strContains invalid_version_message "20241128" = true
    ∧ strContains invalid_version_message "20250304" = true := by
  refine ⟨by decide, by decide, by decide, by decide, by decide⟩

/-- Claim C2 (amended): for every version tag outside the closed set,
the column-label accessor - and through it the extended accessor and
the schema builder - fails with the `ValueError` raised by the enum
conversion, never silently defaulting; the error message names the
offending tag and the enum type rather than enumerating the valid
values, because the branch with the enumerating message is unreachable. -/
theorem C2_invalid_version_always_errors (s : String)
    (h1 : s ≠ "20241128") (h2 : s ≠ "20250304") :
    get_maru_cols_original s
        = Except.error ("\x27" ++ s ++ "\x27 is not a valid MaruVersion")
    ∧ get_maru_cols s
        = Except.error ("\x27" ++ s ++ "\x27 is not a valid MaruVersion")
    ∧ get_source_schema s
        = Except.error ("\x27" ++ s ++ "\x27 is not a valid MaruVersion") :=
  ⟨get_maru_cols_original_invalid s h1 h2,
   get_maru_cols_invalid s h1 h2,
   get_source_schema_invalid s h1 h2⟩

theorem C2_invalid_version_always_errors_witness :
    get_maru_cols_original "nonsense"
        = Except.error ("\x27" ++ "nonsense" ++ "\x27 is not a valid MaruVersion")
    ∧ get_maru_cols "nonsense"
        = Except.error ("\x27" ++ "nonsense" ++ "\x27 is not a valid MaruVersion")
    ∧ get_source_schema "nonsense"
        = Except.error ("\x27" ++ "nonsense" ++ "\x27 is not a valid MaruVersion") :=
  C2_invalid_version_always_errors "nonsense" (by decide) (by decide)

/-- Claim C7: evaluation at the failing input.  For `'20250304'` the
label accessor does resolve the battery-energy and shore-power-energy
fields to concrete column names, but the built schema contains neither
column, because the version-delta comprehension reads the class-level
defaults (`None`) instead of the resolved labels; the `'20241128'`
schema also contains neither column, as claimed. -/
theorem C7_battery_columns_missing :
    get_maru_cols_original "20250304"
      = Except.ok { kwh_battery := some "sum_kwh_battery",
                    kwh_shore_power := some "sum_kwh_shore_power" }
    ∧ battery_shore_power_cols = []
    ∧ schemaFind (schemaOf "20250304") "sum_kwh_battery" = none
    ∧ schemaFind (schemaOf "20250304") "sum_kwh_shore_power" = none
    ∧ schemaFind (schemaOf "20241128") "sum_kwh_battery" = none
    ∧ schemaFind (schemaOf "20241128") "sum_kwh_shore_power" = none := by
  refine ⟨by decide, by decide, by decide, by decide, by decide, by decide⟩

/-- Categorical domain of one column of one version's schema (`none`
for a non-categorical or missing column). -/
def enumDomainAt (version c : String) : Option (List String) :=
  match schemaFind (schemaOf version) c with
  | some (DType.enum l) => some l
  | _ => none

theorem enumDomainAt_eq_some {v c : String} {l : List String}
    (h : enumDomainAt v c = some l) :
    schemaFind (schemaOf v) c = some (DType.enum l) := by
  unfold enumDomainAt at h
  rcases hf : schemaFind (schemaOf v) c with _ | d
  · rw [hf] at h; exact absurd h (by simp)
  · rw [hf] at h
    cases d <;> simp_all

/-- Bool check used in the proof of the append-only claim: for one
column of the earlier schema, if categorical, its domain is an initial
segment of the later version's domain for the same column. -/
def domainTakeAgrees (p : String × DType) : Bool :=
  match p.2 with
  | DType.enum l1 =>
    (enumDomainAt "20250304" p.1).isSome
      && (((enumDomainAt "20250304" p.1).getD []).take l1.length == l1)
  | _ => true

/-- Claim C3: for every categorical column of the report schema, the
domain built for the earlier version `'20241128'` is an
order-preserving initial segment of the domain built for the later
version `'20250304'`: the later version only appends values (it appends
`"Fishing"` to the phase domain, one municipality entry, one
voyage-type value and two format-version tags), never removing or
reordering existing ones. -/
theorem C3_domains_append_only :
    ∀ p ∈ schemaOf "20241128", ∀ l1, p.2 = DType.enum l1 →
      ∃ l2, schemaFind (schemaOf "20250304") p.1 = some (DType.enum l2)
        ∧ l2.take l1.length = l1 := by
  have h : ∀ p ∈ schemaOf "20241128", domainTakeAgrees p = true := by decide
  intro p hp l1 hl
  have hp2 := h p hp
  unfold domainTakeAgrees at hp2
  rw [hl] at hp2
  rcases ho : enumDomainAt "20250304" p.1 with _ | l2
  · rw [ho] at hp2
    exact absurd hp2 (by simp)
  · rw [ho] at hp2
    simp only [Option.isSome_some, Bool.true_and, beq_iff_eq, Option.getD_some] at hp2
    exact ⟨l2, enumDomainAt_eq_some ho, hp2⟩

theorem C3_domains_append_only_witness :
    ∃ l2, schemaFind (schemaOf "20250304") "phase" = some (DType.enum l2)
      ∧ l2.take (["Anchor", "Aquacultur", "Cruise",
          "Dynamic positioning offshore", "Electric shore power",
          "Maneuver", "Node (berth)"] : List String).length
        = ["Anchor", "Aquacultur", "Cruise", "Dynamic positioning offshore",
           "Electric shore power", "Maneuver", "Node (berth)"] :=
  C3_domains_append_only
    ("phase", DType.enum
      ["Anchor", "Aquacultur", "Cruise", "Dynamic positioning offshore",
       "Electric shore power", "Maneuver", "Node (berth)"])
    (by decide)
    ["Anchor", "Aquacultur", "Cruise", "Dynamic positioning offshore",
     "Electric shore power", "Maneuver", "Node (berth)"]
    rfl

/-- Claim C1, counterexample: in the `'20250304'` municipality domain
the two distinct raw labels for Våler carry distinct non-empty codes
but extract to one and the same name, which is not rewritten to include
a code (only the literal name `"Herøy"` ever is), so the extracted-name
domain of that version is not injective outside the empty-code case. -/
theorem C1_counterexample :
    "Våler (3419)" ∈ municipalityDomain "20250304"
    ∧ "Våler (3114)" ∈ municipalityDomain "20250304"
    ∧ ("Våler (3419)" : String) ≠ "Våler (3114)"
    ∧ extractedName "Våler (3419)" = extractedName "Våler (3114)"
    ∧ extractedName "Våler (3419)" = some "Våler"
    ∧ extractedNumber "Våler (3419)" = some "3419"
    ∧ extractedNumber "Våler (3114)" = some "3114" := by decide

/-- Claim C1 (amended): for version `'20241128'` the extracted
(possibly disambiguated) names of distinct raw municipality labels are
pairwise distinct; for version `'20250304'` the same holds with the
single exception of the pair `"Våler (3419)"` / `"Våler (3114)"` (one
municipality deliberately kept under two codes); in each version
exactly one domain entry, `"Svalbard"`, has an empty extracted code. -/
theorem C1_municipality_name_injectivity :
    (∀ a ∈ municipalityDomain "20241128", ∀ b ∈ municipalityDomain "20241128",
        a ≠ b → extractedName a ≠ extractedName b)
    ∧ (∀ a ∈ municipalityDomain "20250304", ∀ b ∈ municipalityDomain "20250304",
        a ≠ b → extractedName a = extractedName b →
          (a = "Våler (3419)" ∨ a = "Våler (3114)")
          ∧ (b = "Våler (3419)" ∨ b = "Våler (3114)"))
    ∧ (municipalityDomain "20241128").filter
        (fun s => extractedNumber s == some "") = ["Svalbard"]
    ∧ (municipalityDomain "20250304").filter
        (fun s => extractedNumber s == some "") = ["Svalbard"] := by
  refine ⟨?_, ?_, by decide, by decide⟩
  · have hnd : ((municipalityDomain "20241128").map extractedName).Nodup :=
      nodup_of_key_chain optStrKey _ (by decide)
    intro a ha b hb hab he
    exact hab (List.inj_on_of_nodup_map hnd ha hb he)
  · have hnd : (((municipalityDomain "20250304").filter
        (fun s => s != "Våler (3114)")).map extractedName).Nodup :=
      nodup_of_key_chain optStrKey _ (by decide)
    have hv : ((municipalityDomain "20250304").filter
        (fun s => s != "Våler (3114)")).filter
          (fun s => extractedName s == some "Våler") = ["Våler (3419)"] := by decide
    have hn3114 : extractedName "Våler (3114)" = some "Våler" := by decide
    have key : ∀ x ∈ municipalityDomain "20250304", x ≠ "Våler (3114)" →
        extractedName x = some "Våler" → x = "Våler (3419)" := by
      intro x hx hxne hxn
      have hxL : x ∈ (municipalityDomain "20250304").filter
          (fun s => s != "Våler (3114)") :=
        List.mem_filter.mpr ⟨hx, by simpa using hxne⟩
      have hxV : x ∈ [("Våler (3419)" : String)] := by
        rw [← hv]
        exact List.mem_filter.mpr ⟨hxL, by simpa using hxn⟩
      simpa using hxV
    intro a ha b hb hab he
    by_cases haV : a = "Våler (3114)" <;> by_cases hbV : b = "Våler (3114)"
    · exact absurd (haV.trans hbV.symm) hab
    · subst haV
      have hbn : extractedName b = some "Våler" := he.symm.trans hn3114
      exact ⟨Or.inr rfl, Or.inl (key b hb hbV hbn)⟩
    · subst hbV
      have han : extractedName a = some "Våler" := he.trans hn3114
      exact ⟨Or.inl (key a ha haV han), Or.inr rfl⟩
    · exfalso
      have haL : a ∈ (municipalityDomain "20250304").filter
          (fun s => s != "Våler (3114)") :=
        List.mem_filter.mpr ⟨ha, by simpa using haV⟩
      have hbL : b ∈ (municipalityDomain "20250304").filter
          (fun s => s != "Våler (3114)") :=
        List.mem_filter.mpr ⟨hb, by simpa using hbV⟩
      exact hab (List.inj_on_of_nodup_map hnd haL hbL he)

theorem C1_municipality_name_injectivity_witness :
    extractedName "Alstahaug (1820)" ≠ extractedName "Alta (5601)" :=
  C1_municipality_name_injectivity.1 "Alstahaug (1820)" (by decide)
    "Alta (5601)" (by decide) (by decide)

/-- Claim C5, counterexample: on the input `"Svalbard"` (a member of
both versions' municipality domains) the schema-level pipeline and the
row-level pipeline do not produce identical outputs: the schema-level
pipeline fills the absent code with the empty string while the
row-level pipeline leaves it null. -/
theorem C5_counterexample :
    process_municipality_value "Svalbard" ≠ process_row_municipality_value "Svalbard"
    ∧ "Svalbard" ∈ municipalityDomain "20241128"
    ∧ process_municipality_value "Svalbard" = (some "Svalbard", some "")
    ∧ process_row_municipality_value "Svalbard" = (some "Svalbard", none) := by decide

/-- Claim C5 (amended): the schema-level and the row-level municipality
extraction use identical pattern and identical Herøy disambiguation
rewrite (the embedded copies of both are pointwise equal), the
extracted names agree on every input string, and the extracted codes
agree on every input string whose code part is present; the only
difference is the schema-level `fill_null`, which turns an absent code
into the empty string. -/
theorem C5_extraction_equivalence :
    (∀ s, municipality_regex_groups s = municipality_regex_groups_row s)
    ∧ (∀ n c, heroy_disambiguation n c = heroy_disambiguation_row n c)
    ∧ (∀ s, (process_municipality_value s).1 = (process_row_municipality_value s).1)
    ∧ (∀ s c, (process_row_municipality_value s).2 = some c →
        (process_municipality_value s).2 = some c)
    ∧ (∀ s, (process_row_municipality_value s).2 = none →
        (process_municipality_value s).2 = some "") := by
  refine ⟨fun s => rfl, fun n c => rfl, fun s => rfl, fun s c h => ?_, fun s h => ?_⟩
  · show some (((municipality_regex_groups s).2).getD "") = some c
    have h2 : (municipality_regex_groups s).2 = some c := h
    rw [h2]
    rfl
  · show some (((municipality_regex_groups s).2).getD "") = some ""
    have h2 : (municipality_regex_groups s).2 = none := h
    rw [h2]
    rfl

theorem C5_extraction_equivalence_witness :
    (process_municipality_value "Oslo (0301)").2 = some "0301"
    ∧ (process_municipality_value "Svalbard").2 = some "" :=
  ⟨C5_extraction_equivalence.2.2.2.1 "Oslo (0301)" "0301" (by decide),
   C5_extraction_equivalence.2.2.2.2 "Svalbard" (by decide)⟩

/-- Claim C4: for the column labels of every supported version, the
energy-per-voyage-type transform groups exactly by municipality name,
vessel type, year and voyage type - the municipality-voyage-type key
used by every other transform is excluded and the voyage-type key
substituted, for that one variable only (no other transform's key set
contains the voyage-type column). -/
theorem C4_voyage_type_key_substitution :
    ∀ v cols, get_maru_cols v = Except.ok cols →
      energy_per_voyage_type_kwh_keys cols
          = ["municipality_name", "vessel_type", "year", "voyage_type"]
      ∧ cols.municipality_voyage_type ∉ energy_per_voyage_type_kwh_keys cols
      ∧ ∀ ks ∈ [ghg_sum_tonn_keys, ghg_per_gt_tonn_keys cols,
          ghg_per_phase_tonn_keys cols, energy_sum_kwh_keys,
          energy_per_phase_kwh_keys cols, energy_per_gt_kwh_keys cols,
          fuel_sum_tonn_keys, fuel_per_gt_tonn_keys cols],
          cols.municipality_voyage_type ∈ ks ∧ cols.voyage_type ∉ ks := by
  intro v cols h
  by_cases hv1 : v = "20241128"
  · subst hv1
    have hok : get_maru_cols "20241128" = Except.ok {} := by decide
    have hcols : cols = {} := by
      have h2 := hok.symm.trans h
      have h3 : ({} : MaruCol) = cols := by simpa using h2
      exact h3.symm
    subst hcols
    decide
  · by_cases hv2 : v = "20250304"
    · subst hv2
      have hok : get_maru_cols "20250304"
          = Except.ok { kwh_battery := some "sum_kwh_battery",
                        kwh_shore_power := some "sum_kwh_shore_power" } := by decide
      have hcols : cols = { kwh_battery := some "sum_kwh_battery",
                            kwh_shore_power := some "sum_kwh_shore_power" } := by
        have h2 := hok.symm.trans h
        have h3 : ({ kwh_battery := some "sum_kwh_battery",
                     kwh_shore_power := some "sum_kwh_shore_power" } : MaruCol) = cols := by
          simpa using h2
        exact h3.symm
      subst hcols
      decide
    · rw [get_maru_cols_invalid v hv1 hv2] at h
      exact absurd h (by simp)

theorem C4_voyage_type_key_substitution_witness :
    energy_per_voyage_type_kwh_keys {}
        = ["municipality_name", "vessel_type", "year", "voyage_type"]
    ∧ ({} : MaruCol).municipality_voyage_type ∉ energy_per_voyage_type_kwh_keys {}
    ∧ ∀ ks ∈ [ghg_sum_tonn_keys, ghg_per_gt_tonn_keys {},
        ghg_per_phase_tonn_keys {}, energy_sum_kwh_keys,
        energy_per_phase_kwh_keys {}, energy_per_gt_kwh_keys {},
        fuel_sum_tonn_keys, fuel_per_gt_tonn_keys {}],
        ({} : MaruCol).municipality_voyage_type ∈ ks
          ∧ ({} : MaruCol).voyage_type ∉ ks :=
  C4_voyage_type_key_substitution "20241128" {} (by decide)

/-- Claim C6: every output-variable transform sorts its result so that
rows are non-decreasing under the lexicographic row order over all
result columns except the declared output value column (for the
greenhouse-gas transforms, whenever the species selector succeeds and a
result is produced). -/
theorem C6_transform_results_sorted (maru_cols : MaruCol) (ov : Option String)
    (df : List Row) :
    List.Pairwise (rowLe (transform_sort_cols energy_sum_kwh_keys
        (ov.getD maru_cols.energy_kwh)))
      (process_energy_sum_kwh maru_cols ov df)
    ∧ List.Pairwise (rowLe (transform_sort_cols (energy_per_phase_kwh_keys maru_cols)
        (ov.getD maru_cols.energy_kwh)))
      (process_energy_per_phase_kwh maru_cols ov df)
    ∧ List.Pairwise (rowLe (transform_sort_cols (energy_per_gt_kwh_keys maru_cols)
        (ov.getD maru_cols.energy_kwh)))
      (process_energy_per_gt_kwh maru_cols ov df)
    ∧ List.Pairwise (rowLe (transform_sort_cols
        (energy_per_voyage_type_kwh_keys maru_cols)
        (ov.getD maru_cols.energy_kwh)))
      (process_energy_per_voyage_type_kwh maru_cols ov df)
    ∧ List.Pairwise (rowLe (transform_sort_cols fuel_sum_tonn_keys
        (ov.getD maru_cols.fuel)))
      (process_fuel_sum_tonn maru_cols ov df)
    ∧ List.Pairwise (rowLe (transform_sort_cols (fuel_per_gt_tonn_keys maru_cols)
        (ov.getD maru_cols.fuel)))
      (process_fuel_per_gt_tonn maru_cols ov df)
    ∧ (∀ g res, process_ghg_sum_tonn maru_cols g ov df = Except.ok res →
        ∃ src, select_ghg_value_col g maru_cols = Except.ok src
          ∧ List.Pairwise (rowLe (transform_sort_cols ghg_sum_tonn_keys
              (ov.getD src))) res)
    ∧ (∀ g res, process_ghg_per_gt_tonn maru_cols g ov df = Except.ok res →
        ∃ src, select_ghg_value_col g maru_cols = Except.ok src
          ∧ List.Pairwise (rowLe (transform_sort_cols
              (ghg_per_gt_tonn_keys maru_cols) (ov.getD src))) res)
    ∧ (∀ g res, process_ghg_per_phase_tonn maru_cols g ov df = Except.ok res →
        ∃ src, select_ghg_value_col g maru_cols = Except.ok src
          ∧ List.Pairwise (rowLe (transform_sort_cols
              (ghg_per_phase_tonn_keys maru_cols) (ov.getD src))) res) := by
  refine ⟨sortRows_pairwise _ _, sortRows_pairwise _ _, sortRows_pairwise _ _,
    sortRows_pairwise _ _, sortRows_pairwise _ _, sortRows_pairwise _ _,
    ?_, ?_, ?_⟩
  · intro g res h
    rcases hs : select_ghg_value_col g maru_cols with e | src
    · rw [process_ghg_sum_tonn.eq_def, hs] at h
      exact absurd h (by simp [Bind.bind, Except.bind])
    · rw [process_ghg_sum_tonn.eq_def, hs] at h
      have h2 : Except.ok (ε := String)
          (group_sum_sort ghg_sum_tonn_keys src (ov.getD src) df)
          = Except.ok res := h
      have h3 : group_sum_sort ghg_sum_tonn_keys src (ov.getD src) df = res := by
        simpa using h2
      refine ⟨src, rfl, ?_⟩
      rw [← h3]
      exact sortRows_pairwise _ _
  · intro g res h
    rcases hs : select_ghg_value_col g maru_cols with e | src
    · rw [process_ghg_per_gt_tonn.eq_def, hs] at h
      exact absurd h (by simp [Bind.bind, Except.bind])
    · rw [process_ghg_per_gt_tonn.eq_def, hs] at h
      have h2 : Except.ok (ε := String)
          (group_sum_sort (ghg_per_gt_tonn_keys maru_cols) src (ov.getD src) df)
          = Except.ok res := h
      have h3 : group_sum_sort (ghg_per_gt_tonn_keys maru_cols) src
          (ov.getD src) df = res := by
        simpa using h2
      refine ⟨src, rfl, ?_⟩
      rw [← h3]
      exact sortRows_pairwise _ _
  · intro g res h
    rcases hs : select_ghg_value_col g maru_cols with e | src
    · rw [process_ghg_per_phase_tonn.eq_def, hs] at h
      exact absurd h (by simp [Bind.bind, Except.bind])
    · rw [process_ghg_per_phase_tonn.eq_def, hs] at h
      have h2 : Except.ok (ε := String)
          (group_sum_sort (ghg_per_phase_tonn_keys maru_cols) src (ov.getD src) df)
          = Except.ok res := h
      have h3 : group_sum_sort (ghg_per_phase_tonn_keys maru_cols) src
          (ov.getD src) df = res := by
        simpa using h2
      refine ⟨src, rfl, ?_⟩
      rw [← h3]
      exact sortRows_pairwise _ _

/-- Sample typed input frame: two rows in the same group. -/
def c6_sample_input : List Row :=
  [[("municipality_name", CellValue.vstr "Oslo"),
    ("vessel_type", CellValue.vstr "Cruise"),
    ("municipality_voyage_type", CellValue.vstr "Local"),
    ("year", CellValue.vnum 2023),
    ("sum_co2", CellValue.vnum 2)],
   [("municipality_name", CellValue.vstr "Oslo"),
    ("vessel_type", CellValue.vstr "Cruise"),
    ("municipality_voyage_type", CellValue.vstr "Local"),
    ("year", CellValue.vnum 2023),
    ("sum_co2", CellValue.vnum 3)]]

/-- Aggregated output of the CO2-sum transform on the sample frame. -/
def c6_sample_output : List Row :=
  [[("municipality_name", CellValue.vstr "Oslo"),
    ("vessel_type", CellValue.vstr "Cruise"),
    ("municipality_voyage_type", CellValue.vstr "Local"),
    ("year", CellValue.vnum 2023),
    ("sum_co2", CellValue.vnum 5)]]

theorem C6_transform_results_sorted_witness :
    ∃ src, select_ghg_value_col "co2" {} = Except.ok src
      ∧ List.Pairwise (rowLe (transform_sort_cols ghg_sum_tonn_keys
          ((none : Option String).getD src))) c6_sample_output :=
  (C6_transform_results_sorted {} none c6_sample_input).2.2.2.2.2.2.1
    "co2" c6_sample_output (by decide)

/-- Claim C8: for every greenhouse-gas species value outside the closed
set the selector fails with an error and never returns a column; for
every value inside the set, with the column labels of any supported
version, it returns the corresponding sum column. -/
theorem C8_ghg_selector_closed :
    (∀ g maru_cols, g ∉ ghg_values →
      select_ghg_value_col g maru_cols
        = Except.error ("\x27" ++ g ++ "\x27 is not a valid GHG"))
    ∧ (∀ v cols, get_maru_cols v = Except.ok cols →
        select_ghg_value_col "co2" cols = Except.ok "sum_co2"
        ∧ select_ghg_value_col "ch4" cols = Except.ok "sum_ch4"
        ∧ select_ghg_value_col "n2o" cols = Except.ok "sum_n2o") := by
  constructor
  · intro g maru_cols hg
    have hc : ghg_of_string g
        = Except.error ("\x27" ++ g ++ "\x27 is not a valid GHG") := by
      simp [ghg_of_string, hg]
    rw [select_ghg_value_col.eq_def, hc]
    rfl
  · intro v cols h
    by_cases hv1 : v = "20241128"
    · subst hv1
      have hok : get_maru_cols "20241128" = Except.ok {} := by decide
      have hcols : cols = {} := by
        have h2 := hok.symm.trans h
        have h3 : ({} : MaruCol) = cols := by simpa using h2
        exact h3.symm
      subst hcols
      refine ⟨by decide, by decide, by decide⟩
    · by_cases hv2 : v = "20250304"
      · subst hv2
        have hok : get_maru_cols "20250304"
            = Except.ok { kwh_battery := some "sum_kwh_battery",
                          kwh_shore_power := some "sum_kwh_shore_power" } := by decide
        have hcols : cols = { kwh_battery := some "sum_kwh_battery",
                              kwh_shore_power := some "sum_kwh_shore_power" } := by
          have h2 := hok.symm.trans h
          have h3 : ({ kwh_battery := some "sum_kwh_battery",
                       kwh_shore_power := some "sum_kwh_shore_power" } : MaruCol)
              = cols := by
            simpa using h2
          exact h3.symm
        subst hcols
        refine ⟨by decide, by decide, by decide⟩
      · rw [get_maru_cols_invalid v hv1 hv2] at h
        exact absurd h (by simp)

theorem C8_ghg_selector_closed_witness :
    select_ghg_value_col "h2o" {}
        = Except.error ("\x27" ++ "h2o" ++ "\x27 is not a valid GHG")
    ∧ select_ghg_value_col "co2" {} = Except.ok "sum_co2" :=
  ⟨C8_ghg_selector_closed.1 "h2o" {} (by decide),
   (C8_ghg_selector_closed.2 "20241128" {} (by decide)).1⟩

/-- Claim C9: constructing an `OutputVarSpec` with a destination sheet
name longer than 31 characters fails at construction time with the
sheet-name error, and construction with a sheet name of 31 characters
or fewer succeeds and returns the spec unchanged. -/
theorem C9_sheet_name_validation (spec : OutputVarSpec) :
    (spec.sheet_name.length > 31 →
      mk_output_var_spec spec
        = Except.error ("Sheet name \"" ++ spec.sheet_name ++ "\" is too long. "
            ++ "It must be \x7bmax_sheet_name_len\x7d characters or less."))
    ∧ (spec.sheet_name.length ≤ 31 → mk_output_var_spec spec = Except.ok spec) := by
  constructor
  · intro h
    simp [mk_output_var_spec, max_sheet_name_len, h]
  · intro h
    have h2 : ¬ spec.sheet_name.length > max_sheet_name_len := by
      simp only [max_sheet_name_len]
      omega
    simp [mk_output_var_spec, h2]

/-- Sample spec with a 32-character sheet name. -/
def sample_spec_32 : OutputVarSpec :=
  { name := "maru_co2_sum_tonn",
    sheet_name := "abcdefghijklmnopqrstuvwxyz012345",
    processing_func := fun maru_cols ov df =>
      Except.ok (process_energy_sum_kwh maru_cols ov df) }

/-- Sample spec with a 31-character sheet name. -/
def sample_spec_31 : OutputVarSpec :=
  { name := "maru_co2_sum_tonn",
    sheet_name := "abcdefghijklmnopqrstuvwxyz01234",
    processing_func := fun maru_cols ov df =>
      Except.ok (process_energy_sum_kwh maru_cols ov df) }

theorem C9_sheet_name_validation_witness :
    mk_output_var_spec sample_spec_32
      = Except.error ("Sheet name \"" ++ sample_spec_32.sheet_name
          ++ "\" is too long. "
          ++ "It must be \x7bmax_sheet_name_len\x7d characters or less.")
    ∧ mk_output_var_spec sample_spec_31 = Except.ok sample_spec_31 :=
  ⟨(C9_sheet_name_validation sample_spec_32).1 (by decide),
   (C9_sheet_name_validation sample_spec_31).2 (by decide)⟩

/-- Claim C10: the parquet loader raises `FileNotFoundError` when the
input path does not exist; it raises a `ValueError` naming the
municipality whenever the rows filtered to that municipality name are
empty; and it never returns an empty input table. -/
theorem C10_input_loader :
    (∀ in_file_name contents maru_cols municipality_name,
      get_input_data_obj true false in_file_name contents maru_cols municipality_name
        = Except.error (LoadError.fileNotFoundError
            ("Input file \"" ++ in_file_name ++ "\" does not exist.")))
    ∧ (∀ is_path path_exists in_file_name contents maru_cols municipality_name,
        (is_path = true → path_exists = true) →
        contents.filter (fun r =>
            getCol r maru_cols.municipality_name
              = CellValue.vstr municipality_name) = [] →
        get_input_data_obj is_path path_exists in_file_name contents maru_cols
            municipality_name
          = Except.error (LoadError.valueError
              ("No data found for municipality \"" ++ municipality_name ++ "\".")))
    ∧ (∀ is_path path_exists in_file_name contents maru_cols municipality_name df,
        get_input_data_obj is_path path_exists in_file_name contents maru_cols
            municipality_name = Except.ok df →
        df ≠ []) := by
  refine ⟨?_, ?_, ?_⟩
  · intro n c mc m
    rfl
  · intro ip pe n c mc m hip hfilter
    have hcond : ¬ (ip && !pe) = true := by
      cases ip <;> cases pe <;> simp_all
    rw [get_input_data_obj.eq_def]
    rw [if_neg hcond, hfilter]
    rfl
  · intro ip pe n c mc m df h
    rw [get_input_data_obj.eq_def] at h
    by_cases hcond : (ip && !pe) = true
    · rw [if_pos hcond] at h
      exact absurd h (by simp)
    · rw [if_neg hcond] at h
      have h2 : (if (List.filter (fun r =>
            decide (getCol r mc.municipality_name = CellValue.vstr m)) c).length = 0
          then Except.error (LoadError.valueError
            ("No data found for municipality \"" ++ m ++ "\"."))
          else Except.ok (List.filter (fun r =>
            decide (getCol r mc.municipality_name = CellValue.vstr m)) c))
          = Except.ok df := h
      by_cases hlen : (List.filter (fun r =>
          decide (getCol r mc.municipality_name = CellValue.vstr m)) c).length = 0
      · rw [if_pos hlen] at h2
        exact absurd h2 (by simp)
      · rw [if_neg hlen] at h2
        have hdf : List.filter (fun r =>
            decide (getCol r mc.municipality_name = CellValue.vstr m)) c = df := by
          simpa using h2
        rw [← hdf]
        intro hnil
        rw [hnil] at hlen
        exact hlen rfl

theorem C10_input_loader_witness :
    get_input_data_obj true false "input.parquet" [] {} "Oslo"
      = Except.error (LoadError.fileNotFoundError
          ("Input file \"" ++ "input.parquet" ++ "\" does not exist."))
    ∧ get_input_data_obj true true "input.parquet" [] {} "Oslo"
      = Except.error (LoadError.valueError
          ("No data found for municipality \"" ++ "Oslo" ++ "\"."))
    ∧ ([[("municipality_name", CellValue.vstr "Oslo")]] : List Row) ≠ [] :=
  ⟨C10_input_loader.1 "input.parquet" [] {} "Oslo",
   C10_input_loader.2.1 true true "input.parquet" [] {} "Oslo"
     (fun _ => rfl) (by decide),
   C10_input_loader.2.2 true true "input.parquet"
     [[("municipality_name", CellValue.vstr "Oslo")]] {} "Oslo"
     [[("municipality_name", CellValue.vstr "Oslo")]] (by decide)⟩
